import Mathlib

/-!
# Verification of the job lifecycle and file-serving contract of `src/server.py`

A shallow embedding of the FastAPI service in `src/server.py`.  The service
keeps a directory per job under `OUTPUT_DIR` (`output/`); paths below are
modelled relative to that root as lists of components (`FPath`), so the job
directory of job `j` is `[j]` and a file `f` inside it is `[j, f]`.

External effects (directory creation, file writes, the Gemini description
provider, the SAM-Audio separation engine, artifact saving) are modelled by an
`Env` of outcomes fixed before the run; each call the handler makes is recorded
in an event trace so that ordering and call-count properties can be stated.
-/

namespace Server

/-- File content, a sequence of byte values. -/
abbrev Bytes := List Nat

/-- A filesystem path relative to `OUTPUT_DIR`, as a list of components. -/
abbrev FPath := List String

/-- The job store: the directories that exist under `OUTPUT_DIR` and the files
(with their contents) under it.  A later entry for the same file path is
shadowed by an earlier one, so prepending models an overwriting write. -/
structure FS where
  dirs : List FPath
  files : List (FPath × Bytes)
deriving DecidableEq

/-- The empty job store (fresh `output/` directory). -/
def FS.empty : FS := ⟨[], []⟩

/-- The content of the file at `p`, if one exists. -/
def FS.fileAt (fs : FS) (p : FPath) : Option Bytes :=
  (fs.files.find? (fun e => e.1 = p)).map (·.2)

/-- Python `Path.exists()`: the path names an existing directory or file. -/
def FS.pathExists (fs : FS) (p : FPath) : Bool :=
  fs.dirs.contains p || fs.files.any (fun e => e.1 = p)

/-- Python `x or d` for an optional string: `d` when `x` is `None` or empty
(both are falsy in Python). -/
def pyOrStr (x : Option String) (d : String) : String :=
  match x with
  | none => d
  | some s => if s = "" then d else s

/-- The characters after the last `.` of a name, or `none` when the name has
no dot. -/
def afterLastDot : List Char → Option (List Char)
  | [] => none
  | c :: cs =>
    match afterLastDot cs with
    | some e => some e
    | none => if c = '.' then some cs else none

/-- The lowercased extension of a filename, dot included (`""` if there is
none), as Python's `mimetypes` derives it. -/
def lastExt (s : String) : String :=
  match afterLastDot s.data with
  | some e => "." ++ String.mk (e.map Char.toLower)
  | none => ""

/-- Representative fragment of the stdlib `mimetypes` extension table used by
`mimetypes.guess_type`; the entries relevant to a media service. -/
def mimeTable : List (String × String) :=
  [(".mp4", "video/mp4"), (".mov", "video/quicktime"), (".webm", "video/webm"),
   (".avi", "video/x-msvideo"), (".wav", "audio/x-wav"), (".mp3", "audio/mpeg"),
   (".m4a", "audio/mp4"), (".flac", "audio/flac"), (".ogg", "audio/ogg")]

/-- Python `mimetypes.guess_type(name)[0]`: look the filename's extension up in
the extension table. -/
def guess_type (name : String) : Option String :=
  mimeTable.lookup (lastExt name)

/-- Lines 97-99 of `server.py`:
`mime_type = file.content_type`;
`if not mime_type or mime_type == "application/octet-stream":`
`  mime_type = mimetypes.guess_type(file.filename or "video.mp4")[0] or "video/mp4"`.
Python's `not mime_type` is true when the content type is `None` or `""`. -/
def resolve_mime (content_type filename : Option String) : String :=
  if content_type = none ∨ content_type = some ""
      ∨ content_type = some "application/octet-stream" then
    (guess_type (pyOrStr filename "video.mp4")).getD "video/mp4"
  else
    content_type.getD ""

/-- "the type inferred from the filename extension; otherwise the default
`video/mp4`" — the fallback of the specification's MIME resolution rule. -/
def infer_from_filename : Option String → String
  | some f => (guess_type f).getD "video/mp4"
  | none => "video/mp4"

/-- The MIME resolution rule as the specification words it: the declared
content-type if present (non-empty) and not the generic binary placeholder;
otherwise the type inferred from the filename extension; otherwise the default
`video/mp4`.  Stated independently of `resolve_mime` for comparison. -/
def resolve_mime_spec (content_type filename : Option String) : String :=
  match content_type with
  | some ct =>
    if ct ≠ "" ∧ ct ≠ "application/octet-stream" then ct
    else infer_from_filename filename
  | none => infer_from_filename filename

/-- A multipart upload: optional filename, optional declared content type, and
the uploaded bytes (`await file.read()`). -/
structure UploadFile where
  filename : Option String
  content_type : Option String
  content : Bytes
deriving DecidableEq

/-- Outcomes of the external effects for one request: whether `mkdir`,
`write_bytes` and `result.save` succeed at the OS level, and what the
description provider and the separation engine return (or that they raise). -/
structure Env where
  mkdir_ok : Bool
  write_ok : Bool
  save_ok : Bool
  provider : Except Unit String
  engine : Except Unit (Bytes × Bytes)

/-- One external call made by the handler, with its arguments. -/
inductive Event
  | mkdirCall (dir : FPath)
  | writeInput (path : FPath) (bytes : Bytes)
  | providerCall (bytes : Bytes) (mime : String)
  | engineCall (path : FPath) (description : String)
  | saveCall (speech background : FPath)
deriving DecidableEq

/-- Whether an event is an invocation of the separation engine. -/
def Event.isEngineCall : Event → Bool
  | .engineCall _ _ => true
  | _ => false

/-- The error classes of the spec's taxonomy that `separate` can surface. -/
inductive SepError
  | storage
  | provider
  | engine
deriving DecidableEq

/-- The JSON body returned by a successful `/separate` call. -/
structure SepResponse where
  speech_url : String
  background_url : String
deriving DecidableEq

/-- Python `str.rstrip("/")`: drop every trailing slash. -/
def rstripSlash (s : String) : String :=
  ⟨(s.data.reverse.dropWhile (fun c => c = '/')).reverse⟩

/-- Python `str.strip()`: remove leading and trailing whitespace. -/
def strStrip (s : String) : String :=
  ⟨(((s.data.dropWhile Char.isWhitespace).reverse.dropWhile Char.isWhitespace).reverse)⟩

/-- `_describe_speaker` (lines 70-82): forward the provider outcome, stripping
surrounding whitespace from the returned text (`response.text.strip()`). -/
def describe_speaker (providerResult : Except Unit String) : Except Unit String :=
  providerResult.map strStrip

instance {ε α : Type} [DecidableEq ε] [DecidableEq α] : DecidableEq (Except ε α)
  | .ok a, .ok b =>
    if h : a = b then .isTrue (by rw [h])
    else .isFalse (by intro hh; cases hh; exact h rfl)
  | .ok _, .error _ => .isFalse (by intro h; cases h)
  | .error _, .ok _ => .isFalse (by intro h; cases h)
  | .error a, .error b =>
    if h : a = b then .isTrue (by rw [h])
    else .isFalse (by intro hh; cases hh; exact h rfl)

/-- The `/separate` handler (lines 85-114), step by step:
`job_dir.mkdir()` (fails on an OS error or when the path already exists);
write the uploaded bytes to `job_dir / (file.filename or "input")`;
resolve the MIME type; call the description provider; call
`model.separate(str(input_path), description=description)`; save the two
artifacts as `speech.wav` and `background.wav`; return the two URLs built
from `str(request.base_url).rstrip("/")`.  Any failure propagates and aborts
the remaining steps.  Returns the final store, the trace of external calls,
and the response or error. -/
def separate (env : Env) (base_url : String) (file : UploadFile) (job_id : String)
    (fs : FS) : FS × List Event × Except SepError SepResponse :=
  let job_dir : FPath := [job_id]
  if fs.pathExists job_dir || !env.mkdir_ok then
    (fs, [.mkdirCall job_dir], .error .storage)
  else
    let fs1 : FS := { fs with dirs := job_dir :: fs.dirs }
    let file_bytes := file.content
    let input_path : FPath := [job_id, pyOrStr file.filename "input"]
    let ev1 : List Event := [.mkdirCall job_dir, .writeInput input_path file_bytes]
    if !env.write_ok then
      (fs1, ev1, .error .storage)
    else
      let fs2 : FS := { fs1 with files := (input_path, file_bytes) :: fs1.files }
      let mime_type := resolve_mime file.content_type file.filename
      let ev2 : List Event := ev1 ++ [.providerCall file_bytes mime_type]
      match describe_speaker env.provider with
      | .error _ => (fs2, ev2, .error .provider)
      | .ok description =>
        let ev3 : List Event := ev2 ++ [.engineCall input_path description]
        match env.engine with
        | .error _ => (fs2, ev3, .error .engine)
        | .ok result =>
          let speech_path : FPath := [job_id, "speech.wav"]
          let background_path : FPath := [job_id, "background.wav"]
          let ev4 : List Event := ev3 ++ [.saveCall speech_path background_path]
          if !env.save_ok then
            (fs2, ev4, .error .storage)
          else
            let fs3 : FS := { fs2 with files :=
              (speech_path, result.1) :: (background_path, result.2) :: fs2.files }
            let base := rstripSlash base_url
            (fs3, ev4,
              .ok { speech_url := base ++ "/files/" ++ job_id ++ "/speech.wav",
                    background_url := base ++ "/files/" ++ job_id ++ "/background.wav" })

/-- The possible responses of `GET /files/{job_id}/{filename}`.  The handler
(lines 117-120) returns `FileResponse(path, media_type="audio/wav")` with no
existence check; when the path has no file, Starlette's `FileResponse` raises
a `RuntimeError` while sending, which FastAPI surfaces as an HTTP 500, not as
a 404. -/
inductive GetFileReply
  | file (bytes : Bytes) (mediaType : String)
  | runtimeError
deriving DecidableEq

/-- The HTTP status a `GetFileReply` is delivered with. -/
def GetFileReply.httpStatus : GetFileReply → Nat
  | .file _ _ => 200
  | .runtimeError => 500

/-- The `get_file` handler (lines 117-120): serve `OUTPUT_DIR/job_id/filename`
with the fixed media type `audio/wav`; an absent file makes the
`FileResponse` fail at send time. -/
def get_file (fs : FS) (job_id filename : String) : GetFileReply :=
  match fs.fileAt [job_id, filename] with
  | some b => .file b "audio/wav"
  | none => .runtimeError

/-- The possible responses of `DELETE /files/{job_id}`: the success body
`{"status": "deleted"}` or a raised `HTTPException`. -/
inductive DeleteReply
  | deleted
  | httpError (status : Nat) (detail : String)
deriving DecidableEq

/-- The `delete_job` handler (lines 123-129): 404 when `output/<job_id>` does
not exist, otherwise `shutil.rmtree(job_dir)` (removing the directory and
everything below it) and the success body. -/
def delete_job (fs : FS) (job_id : String) : FS × DeleteReply :=
  if fs.pathExists [job_id] then
    ({ dirs := fs.dirs.filter (fun d => !(d.head? == some job_id)),
       files := fs.files.filter (fun e => !(e.1.head? == some job_id)) },
     .deleted)
  else
    (fs, .httpError 404 "Job not found")

/-- Whether an `Except` result is a success. -/
def exceptOk {ε α : Type} : Except ε α → Bool
  | .ok _ => true
  | .error _ => false

/-- A concrete environment in which every external call succeeds: the provider
answers with text that carries surrounding whitespace, the engine returns two
distinct artifact buffers. -/
def envAllOk : Env := ⟨true, true, true, .ok " Man speaking ", .ok ([1, 2], [3, 4])⟩

/-- A concrete environment in which writing the input file fails at the OS
level (e.g. disk full) after the job directory was created. -/
def envWriteFail : Env := ⟨true, false, true, .ok " Man speaking ", .ok ([1, 2], [3, 4])⟩

/-- A concrete environment in which the provider succeeds and the separation
engine then raises. -/
def envEngineFail : Env := ⟨true, true, true, .ok " Man speaking ", .error ()⟩

/-- A concrete upload: `clip.mp4`, declared `video/mp4`, three bytes. -/
def upClip : UploadFile := ⟨some "clip.mp4", some "video/mp4", [7, 8, 9]⟩

/-- A concrete job store holding one job `"j"` with one input file. -/
def fsJob : FS := ⟨[["j"]], [(["j", "input"], [1])]⟩

/-! ## Helper lemmas -/

lemma fileAt_cons (dirs : List FPath) (p : FPath) (b : Bytes)
    (rest : List (FPath × Bytes)) (q : FPath) :
    FS.fileAt ⟨dirs, (p, b) :: rest⟩ q =
      if p = q then some b else FS.fileAt ⟨dirs, rest⟩ q := by
  by_cases h : p = q <;> simp [FS.fileAt, List.find?, h]

lemma fileAt_files_fresh (dirs : List FPath) (files : List (FPath × Bytes))
    (jid : String) (hfresh : ∀ e ∈ files, e.1.head? ≠ some jid) (name : String) :
    FS.fileAt ⟨dirs, files⟩ [jid, name] = none := by
  have hfind : files.find? (fun e => e.1 = [jid, name]) = none := by
    rw [List.find?_eq_none]
    intro e he
    simp only [decide_eq_true_eq]
    intro hq
    exact hfresh e he (by rw [hq]; rfl)
  simp [FS.fileAt, hfind]

lemma fileAt_fresh (fs : FS) (jid : String)
    (hfresh : ∀ e ∈ fs.files, e.1.head? ≠ some jid) (name : String) :
    fs.fileAt [jid, name] = none :=
  fileAt_files_fresh fs.dirs fs.files jid hfresh name

lemma speech_ne_background : ("speech.wav" : String) ≠ "background.wav" := by
  decide

lemma no_artifacts_of_input_only (dirs : List FPath) (fs : FS) (jid iname : String)
    (b : Bytes) (hfresh : ∀ e ∈ fs.files, e.1.head? ≠ some jid) :
    ¬ ((FS.fileAt ⟨dirs, ([jid, iname], b) :: fs.files⟩ [jid, "speech.wav"]).isSome = true ∧
       (FS.fileAt ⟨dirs, ([jid, iname], b) :: fs.files⟩ [jid, "background.wav"]).isSome = true) := by
  rintro ⟨hsp, hbg⟩
  rw [fileAt_cons] at hsp hbg
  by_cases hsw : ([jid, iname] : FPath) = [jid, "speech.wav"]
  · have hnb : ¬ ([jid, iname] : FPath) = [jid, "background.wav"] := by
      rw [hsw]
      simp [List.cons.injEq, speech_ne_background]
    rw [if_neg hnb, fileAt_files_fresh dirs fs.files jid hfresh] at hbg
    simp at hbg
  · rw [if_neg hsw, fileAt_files_fresh dirs fs.files jid hfresh] at hsp
    simp at hsp

lemma separate_mkdir_fail (env : Env) (base : String) (up : UploadFile)
    (jid : String) (fs : FS)
    (h : (fs.pathExists [jid] || !env.mkdir_ok) = true) :
    separate env base up jid fs = (fs, [.mkdirCall [jid]], .error .storage) := by
  simp [separate, h]

lemma separate_write_fail (env : Env) (base : String) (up : UploadFile)
    (jid : String) (fs : FS)
    (hdir : fs.pathExists [jid] = false) (hmk : env.mkdir_ok = true)
    (hw : env.write_ok = false) :
    separate env base up jid fs =
      (⟨[jid] :: fs.dirs, fs.files⟩,
       [.mkdirCall [jid], .writeInput [jid, pyOrStr up.filename "input"] up.content],
       .error .storage) := by
  simp [separate, hdir, hmk, hw]

lemma separate_provider_fail (env : Env) (base : String) (up : UploadFile)
    (jid : String) (fs : FS) (e : Unit)
    (hdir : fs.pathExists [jid] = false) (hmk : env.mkdir_ok = true)
    (hw : env.write_ok = true) (hpro : env.provider = .error e) :
    separate env base up jid fs =
      (⟨[jid] :: fs.dirs, ([jid, pyOrStr up.filename "input"], up.content) :: fs.files⟩,
       [.mkdirCall [jid], .writeInput [jid, pyOrStr up.filename "input"] up.content,
        .providerCall up.content (resolve_mime up.content_type up.filename)],
       .error .provider) := by
  simp [separate, hdir, hmk, hw, hpro, describe_speaker, Except.map]

lemma separate_engine_fail (env : Env) (base : String) (up : UploadFile)
    (jid : String) (fs : FS) (t : String)
    (hdir : fs.pathExists [jid] = false) (hmk : env.mkdir_ok = true)
    (hw : env.write_ok = true) (hpro : env.provider = .ok t)
    (heng : env.engine = .error ()) :
    separate env base up jid fs =
      (⟨[jid] :: fs.dirs, ([jid, pyOrStr up.filename "input"], up.content) :: fs.files⟩,
       [.mkdirCall [jid], .writeInput [jid, pyOrStr up.filename "input"] up.content,
        .providerCall up.content (resolve_mime up.content_type up.filename),
        .engineCall [jid, pyOrStr up.filename "input"] (strStrip t)],
       .error .engine) := by
  simp [separate, hdir, hmk, hw, hpro, heng, describe_speaker, Except.map]

lemma separate_save_fail (env : Env) (base : String) (up : UploadFile)
    (jid : String) (fs : FS) (t : String) (pr : Bytes × Bytes)
    (hdir : fs.pathExists [jid] = false) (hmk : env.mkdir_ok = true)
    (hw : env.write_ok = true) (hpro : env.provider = .ok t)
    (heng : env.engine = .ok pr) (hsv : env.save_ok = false) :
    separate env base up jid fs =
      (⟨[jid] :: fs.dirs, ([jid, pyOrStr up.filename "input"], up.content) :: fs.files⟩,
       [.mkdirCall [jid], .writeInput [jid, pyOrStr up.filename "input"] up.content,
        .providerCall up.content (resolve_mime up.content_type up.filename),
        .engineCall [jid, pyOrStr up.filename "input"] (strStrip t),
        .saveCall [jid, "speech.wav"] [jid, "background.wav"]],
       .error .storage) := by
  simp [separate, hdir, hmk, hw, hpro, heng, hsv, describe_speaker, Except.map]

lemma separate_success (env : Env) (base : String) (up : UploadFile)
    (jid : String) (fs : FS) (t : String) (pr : Bytes × Bytes)
    (hdir : fs.pathExists [jid] = false) (hmk : env.mkdir_ok = true)
    (hw : env.write_ok = true) (hpro : env.provider = .ok t)
    (heng : env.engine = .ok pr) (hsv : env.save_ok = true) :
    separate env base up jid fs =
      (⟨[jid] :: fs.dirs,
        ([jid, "speech.wav"], pr.1) :: ([jid, "background.wav"], pr.2) ::
          ([jid, pyOrStr up.filename "input"], up.content) :: fs.files⟩,
       [.mkdirCall [jid], .writeInput [jid, pyOrStr up.filename "input"] up.content,
        .providerCall up.content (resolve_mime up.content_type up.filename),
        .engineCall [jid, pyOrStr up.filename "input"] (strStrip t),
        .saveCall [jid, "speech.wav"] [jid, "background.wav"]],
       .ok { speech_url := rstripSlash base ++ "/files/" ++ jid ++ "/speech.wav",
             background_url := rstripSlash base ++ "/files/" ++ jid ++ "/background.wav" }) := by
  simp [separate, hdir, hmk, hw, hpro, heng, hsv, describe_speaker, Except.map]

lemma guess_fallback_eq (fn : Option String) :
    (guess_type (pyOrStr fn "video.mp4")).getD "video/mp4" = infer_from_filename fn := by
  cases fn with
  | none => decide
  | some f =>
    by_cases hf : f = ""
    · subst hf; decide
    · simp [pyOrStr, infer_from_filename, hf]

lemma input_path_occupied (env : Env) (base : String) (up : UploadFile)
    (jid : String) (fs : FS)
    (hdir : fs.pathExists [jid] = false) (hmk : env.mkdir_ok = true)
    (hw : env.write_ok = true) :
    ((separate env base up jid fs).1.fileAt [jid, pyOrStr up.filename "input"]).isSome
      = true := by
  cases hpro : env.provider with
  | error e =>
    rw [separate_provider_fail env base up jid fs e hdir hmk hw hpro]
    rw [fileAt_cons, if_pos rfl]
    simp
  | ok t =>
    cases heng : env.engine with
    | error e =>
      cases e
      rw [separate_engine_fail env base up jid fs t hdir hmk hw hpro heng]
      rw [fileAt_cons, if_pos rfl]
      simp
    | ok pr =>
      cases hsv : env.save_ok with
      | false =>
        rw [separate_save_fail env base up jid fs t pr hdir hmk hw hpro heng hsv]
        rw [fileAt_cons, if_pos rfl]
        simp
      | true =>
        rw [separate_success env base up jid fs t pr hdir hmk hw hpro heng hsv]
        by_cases hsp : ([jid, "speech.wav"] : FPath) = [jid, pyOrStr up.filename "input"]
        · rw [fileAt_cons, if_pos hsp]
          simp
        · rw [fileAt_cons, if_neg hsp]
          by_cases hbg :
              ([jid, "background.wav"] : FPath) = [jid, pyOrStr up.filename "input"]
          · rw [fileAt_cons, if_pos hbg]
            simp
          · rw [fileAt_cons, if_neg hbg, fileAt_cons, if_pos rfl]
            simp

lemma delete_job_removes (fs : FS) (jid : String) (h : fs.pathExists [jid] = true) :
    (delete_job fs jid).2 = .deleted ∧
    (delete_job fs jid).1.pathExists [jid] = false ∧
    ∀ name, (delete_job fs jid).1.fileAt [jid, name] = none := by
  refine ⟨by simp [delete_job, h], ?_, ?_⟩
  · simp only [delete_job, h, if_true]
    simp [FS.pathExists, List.mem_filter]
    intro a b _ hhead ha
    exact hhead (by rw [ha]; rfl)
  · intro name
    simp only [delete_job, h, if_true]
    apply fileAt_fresh
    intro e he
    have := (List.mem_filter.mp he).2
    simp at this
    intro hh
    exact this (by rw [hh])

/-! ## Claims -/

/-- C3: `separate` resolves the MIME type exactly as the specification words
it — declared content-type when present and not `application/octet-stream`,
else inference from the filename extension, else the `video/mp4` default —
and an upload with no filename and no content-type resolves to `video/mp4`. -/
theorem c3_mime_resolution :
    (∀ ct fn : Option String, resolve_mime ct fn = resolve_mime_spec ct fn) ∧
    resolve_mime none none = "video/mp4" := by
  refine ⟨?_, by decide⟩
  intro ct fn
  cases ct with
  | none => simpa [resolve_mime, resolve_mime_spec] using guess_fallback_eq fn
  | some c =>
    by_cases h1 : c = ""
    · subst h1
      simpa [resolve_mime, resolve_mime_spec] using guess_fallback_eq fn
    · by_cases h2 : c = "application/octet-stream"
      · subst h2
        simpa [resolve_mime, resolve_mime_spec] using guess_fallback_eq fn
      · simp [resolve_mime, resolve_mime_spec, h1, h2]

/-- C8: when creating the job directory fails — the generated id collides
with an existing path, or the OS call fails — `separate` surfaces a storage
error, leaves the store untouched, and its trace is exactly the single
`mkdir` attempt for that one id: no retry, no second identifier, no other
external call. -/
theorem c8_mkdir_failure (env : Env) (base : String) (up : UploadFile)
    (jid : String) (fs : FS)
    (h : fs.pathExists [jid] = true ∨ env.mkdir_ok = false) :
    separate env base up jid fs = (fs, [.mkdirCall [jid]], .error .storage) := by
  apply separate_mkdir_fail
  rcases h with h | h <;> simp [h]

theorem c8_witness :
    (fsJob.pathExists ["j"] = true ∨ envAllOk.mkdir_ok = false) ∧
    separate envAllOk "http://h" upClip "j" fsJob =
      (fsJob, [.mkdirCall ["j"]], .error .storage) :=
  ⟨Or.inl (by decide),
   c8_mkdir_failure envAllOk "http://h" upClip "j" fsJob (Or.inl (by decide))⟩

/-- C2 counterexample: on a store with no file at `output/nojob/speech.wav`,
`get_file` does not report a 404 — the unhandled `FileResponse` failure
surfaces as a 500. -/
theorem c2_counterexample :
    (get_file FS.empty "nojob" "speech.wav").httpStatus = 500 ∧
    ¬ (get_file FS.empty "nojob" "speech.wav").httpStatus = 404 := by
  decide

/-- C2 (amended): when no file exists at `output/<job_id>/<filename>`,
`get_file` performs no existence check and the `FileResponse` fails at send
time: the caller gets a generic 500 server error, never a 404. -/
theorem c2_missing_file (fs : FS) (job_id filename : String)
    (h : fs.fileAt [job_id, filename] = none) :
    get_file fs job_id filename = .runtimeError ∧
    (get_file fs job_id filename).httpStatus = 500 ∧
    ¬ (get_file fs job_id filename).httpStatus = 404 := by
  simp [get_file, h, GetFileReply.httpStatus]

theorem c2_witness :
    FS.empty.fileAt ["ghost", "x.wav"] = none ∧
    (get_file FS.empty "ghost" "x.wav" = .runtimeError ∧
     (get_file FS.empty "ghost" "x.wav").httpStatus = 500 ∧
     ¬ (get_file FS.empty "ghost" "x.wav").httpStatus = 404) :=
  ⟨rfl, c2_missing_file FS.empty "ghost" "x.wav" rfl⟩

/-- C4: `delete_job` reports a 404 `HTTPException` when `output/<job_id>`
does not exist; otherwise it removes the whole job directory — the
directory entry and every file under it — and reports `{status: "deleted"}`.
Consequently deleting the same id twice succeeds the first time and reports
404 the second. -/
theorem c4_delete_job (fs : FS) (jid : String) :
    (fs.pathExists [jid] = false →
      delete_job fs jid = (fs, .httpError 404 "Job not found")) ∧
    (fs.pathExists [jid] = true →
      (delete_job fs jid).2 = .deleted ∧
      (delete_job fs jid).1.pathExists [jid] = false ∧
      (∀ name, (delete_job fs jid).1.fileAt [jid, name] = none) ∧
      (delete_job (delete_job fs jid).1 jid).2 = .httpError 404 "Job not found") := by
  constructor
  · intro h
    simp [delete_job, h]
  · intro h
    obtain ⟨h1, h2, h3⟩ := delete_job_removes fs jid h
    refine ⟨h1, h2, h3, ?_⟩
    generalize (delete_job fs jid).1 = fs2 at h2 ⊢
    simp [delete_job, h2]

theorem c4_witness :
    fsJob.pathExists ["j"] = true ∧
    (delete_job fsJob "j").2 = .deleted ∧
    (delete_job (delete_job fsJob "j").1 "j").2 = .httpError 404 "Job not found" :=
  ⟨by decide, ((c4_delete_job fsJob "j").2 (by decide)).1,
   ((c4_delete_job fsJob "j").2 (by decide)).2.2.2⟩

/-- C10: `get_file` serves whatever file exists at
`output/<job_id>/<filename>` with the fixed media type `audio/wav`,
regardless of the file's content; in particular, after a successful
`separate` run the original uploaded input file (whatever its real format)
is retrievable through the same route and is labeled `audio/wav`. -/
theorem c10_fixed_media_type :
    (∀ (fs : FS) (jid f : String) (b : Bytes), fs.fileAt [jid, f] = some b →
      get_file fs jid f = .file b "audio/wav") ∧
    (∀ (env : Env) (base : String) (up : UploadFile) (jid : String) (fs : FS)
        (t : String) (pr : Bytes × Bytes),
      fs.pathExists [jid] = false → env.mkdir_ok = true → env.write_ok = true →
      env.provider = .ok t → env.engine = .ok pr → env.save_ok = true →
      pyOrStr up.filename "input" ≠ "speech.wav" →
      pyOrStr up.filename "input" ≠ "background.wav" →
      get_file (separate env base up jid fs).1 jid (pyOrStr up.filename "input") =
        .file up.content "audio/wav") := by
  constructor
  · intro fs jid f b hb
    simp [get_file, hb]
  · intro env base up jid fs t pr hdir hmk hw hpro heng hsv hs hb
    rw [separate_success env base up jid fs t pr hdir hmk hw hpro heng hsv]
    have hsp : ¬ ([jid, "speech.wav"] : FPath) = [jid, pyOrStr up.filename "input"] := by
      simp only [List.cons.injEq, and_true, true_and]
      intro hh
      exact hs hh.symm
    have hbg : ¬ ([jid, "background.wav"] : FPath) = [jid, pyOrStr up.filename "input"] := by
      simp only [List.cons.injEq, and_true, true_and]
      intro hh
      exact hb hh.symm
    simp [get_file, fileAt_cons, hsp, hbg]

/-- C7: a successful `separate` call answers with exactly the two retrieval
URLs — each built from the stripped base URL of the serving host, the job id,
and one of the two fixed artifact filenames — and those names match the
persisted layout: the artifacts are at `output/<job_id>/speech.wav` and
`output/<job_id>/background.wav` with the engine's bytes. -/
theorem c7_success_response (env : Env) (base : String) (up : UploadFile)
    (jid : String) (fs : FS) (t : String) (pr : Bytes × Bytes)
    (hdir : fs.pathExists [jid] = false) (hmk : env.mkdir_ok = true)
    (hw : env.write_ok = true) (hpro : env.provider = .ok t)
    (heng : env.engine = .ok pr) (hsv : env.save_ok = true) :
    (separate env base up jid fs).2.2 =
      .ok { speech_url := rstripSlash base ++ "/files/" ++ jid ++ "/speech.wav",
            background_url := rstripSlash base ++ "/files/" ++ jid ++ "/background.wav" } ∧
    (separate env base up jid fs).1.fileAt [jid, "speech.wav"] = some pr.1 ∧
    (separate env base up jid fs).1.fileAt [jid, "background.wav"] = some pr.2 := by
  rw [separate_success env base up jid fs t pr hdir hmk hw hpro heng hsv]
  refine ⟨rfl, ?_, ?_⟩
  · rw [fileAt_cons, if_pos rfl]
  · rw [fileAt_cons, if_neg (by simp [List.cons.injEq, speech_ne_background]),
      fileAt_cons, if_pos rfl]

theorem c7_witness :
    FS.empty.pathExists ["j7"] = false ∧
    (separate envAllOk "http://h/" upClip "j7" FS.empty).2.2 =
      .ok { speech_url := "http://h/files/j7/speech.wav",
            background_url := "http://h/files/j7/background.wav" } ∧
    (separate envAllOk "http://h/" upClip "j7" FS.empty).1.fileAt ["j7", "speech.wav"]
      = some [1, 2] ∧
    (separate envAllOk "http://h/" upClip "j7" FS.empty).1.fileAt ["j7", "background.wav"]
      = some [3, 4] :=
  ⟨rfl,
   (c7_success_response envAllOk "http://h/" upClip "j7" FS.empty
      " Man speaking " ([1, 2], [3, 4]) rfl rfl rfl rfl rfl rfl).1,
   (c7_success_response envAllOk "http://h/" upClip "j7" FS.empty
      " Man speaking " ([1, 2], [3, 4]) rfl rfl rfl rfl rfl rfl).2.1,
   (c7_success_response envAllOk "http://h/" upClip "j7" FS.empty
      " Man speaking " ([1, 2], [3, 4]) rfl rfl rfl rfl rfl rfl).2.2⟩

/-- C9: whenever the description provider answers, the trace of `separate`
begins mkdir, input write, provider call, engine call — so the provider call
completes before the engine is invoked — the engine is invoked exactly once,
and its arguments are the persisted input file's path and the provider's
returned string with surrounding whitespace stripped. -/
theorem c9_provider_then_engine (env : Env) (base : String) (up : UploadFile)
    (jid : String) (fs : FS) (t : String)
    (hdir : fs.pathExists [jid] = false) (hmk : env.mkdir_ok = true)
    (hw : env.write_ok = true) (hpro : env.provider = .ok t) :
    (separate env base up jid fs).2.1.take 4 =
      [.mkdirCall [jid],
       .writeInput [jid, pyOrStr up.filename "input"] up.content,
       .providerCall up.content (resolve_mime up.content_type up.filename),
       .engineCall [jid, pyOrStr up.filename "input"] (strStrip t)] ∧
    (separate env base up jid fs).2.1.countP Event.isEngineCall = 1 := by
  cases heng : env.engine with
  | error e =>
    cases e
    rw [separate_engine_fail env base up jid fs t hdir hmk hw hpro heng]
    exact ⟨rfl, by simp [List.countP, List.countP.go, Event.isEngineCall]⟩
  | ok pr =>
    cases hsv : env.save_ok with
    | false =>
      rw [separate_save_fail env base up jid fs t pr hdir hmk hw hpro heng hsv]
      exact ⟨rfl, by simp [List.countP, List.countP.go, Event.isEngineCall]⟩
    | true =>
      rw [separate_success env base up jid fs t pr hdir hmk hw hpro heng hsv]
      exact ⟨rfl, by simp [List.countP, List.countP.go, Event.isEngineCall]⟩

theorem c9_witness :
    FS.empty.pathExists ["j9"] = false ∧
    (separate envAllOk "http://h" upClip "j9" FS.empty).2.1.take 4 =
      [.mkdirCall ["j9"],
       .writeInput ["j9", "clip.mp4"] [7, 8, 9],
       .providerCall [7, 8, 9] "video/mp4",
       .engineCall ["j9", "clip.mp4"] "Man speaking"] ∧
    (separate envAllOk "http://h" upClip "j9" FS.empty).2.1.countP Event.isEngineCall = 1 :=
  ⟨rfl,
   (c9_provider_then_engine envAllOk "http://h" upClip "j9" FS.empty
      " Man speaking " rfl rfl rfl rfl).1,
   (c9_provider_then_engine envAllOk "http://h" upClip "j9" FS.empty
      " Man speaking " rfl rfl rfl rfl).2⟩

theorem c10_witness :
    (fsJob.fileAt ["j", "input"] = some [1] ∧
      get_file fsJob "j" "input" = .file [1] "audio/wav") ∧
    get_file (separate envAllOk "http://h" upClip "jx" FS.empty).1 "jx" "clip.mp4" =
      .file [7, 8, 9] "audio/wav" :=
  ⟨⟨rfl, c10_fixed_media_type.1 fsJob "j" "input" [1] rfl⟩,
   c10_fixed_media_type.2 envAllOk "http://h" upClip "jx" FS.empty
     " Man speaking " ([1, 2], [3, 4]) rfl rfl rfl rfl rfl rfl
     (by decide) (by decide)⟩

/-- C5: when the description provider has succeeded and the separation engine
then fails, `separate` propagates the engine error with no retry (its trace
holds exactly one engine invocation) and no partial result: the job directory
holds the persisted input file and nothing else — in particular no artifact
file is persisted. -/
theorem c5_engine_failure (env : Env) (base : String) (up : UploadFile)
    (jid : String) (fs : FS) (t : String)
    (hdir : fs.pathExists [jid] = false)
    (hfresh : ∀ e ∈ fs.files, e.1.head? ≠ some jid)
    (hmk : env.mkdir_ok = true) (hw : env.write_ok = true)
    (hpro : env.provider = .ok t) (heng : env.engine = .error ()) :
    (separate env base up jid fs).2.2 = .error .engine ∧
    (separate env base up jid fs).2.1.countP Event.isEngineCall = 1 ∧
    (separate env base up jid fs).1.fileAt [jid, pyOrStr up.filename "input"]
      = some up.content ∧
    (∀ e ∈ (separate env base up jid fs).1.files, e.1.head? = some jid →
      e.1 = [jid, pyOrStr up.filename "input"] ∧ e.2 = up.content) := by
  rw [separate_engine_fail env base up jid fs t hdir hmk hw hpro heng]
  refine ⟨rfl, by simp [List.countP, List.countP.go, Event.isEngineCall], ?_, ?_⟩
  · rw [fileAt_cons, if_pos rfl]
  · intro e he hhead
    rcases List.mem_cons.mp he with he | he
    · rw [he]
      exact ⟨rfl, rfl⟩
    · exact absurd hhead (hfresh e he)

theorem c5_witness :
    FS.empty.pathExists ["j5"] = false ∧
    (separate envEngineFail "http://h" upClip "j5" FS.empty).2.2 = .error .engine ∧
    (separate envEngineFail "http://h" upClip "j5" FS.empty).2.1.countP
      Event.isEngineCall = 1 ∧
    (separate envEngineFail "http://h" upClip "j5" FS.empty).1.fileAt ["j5", "clip.mp4"]
      = some [7, 8, 9] :=
  ⟨rfl,
   (c5_engine_failure envEngineFail "http://h" upClip "j5" FS.empty " Man speaking "
      rfl (by simp [FS.empty]) rfl rfl rfl rfl).1,
   (c5_engine_failure envEngineFail "http://h" upClip "j5" FS.empty " Man speaking "
      rfl (by simp [FS.empty]) rfl rfl rfl rfl).2.1,
   (c5_engine_failure envEngineFail "http://h" upClip "j5" FS.empty " Man speaking "
      rfl (by simp [FS.empty]) rfl rfl rfl rfl).2.2.1⟩

/-- C6 counterexample: an upload whose supplied filename is the artifact name
`speech.wav` does not survive a successful run — the artifact save overwrites
the persisted upload, so the uploaded bytes `[7,8,9]` are no longer at
`output/j/speech.wav` after the call (the engine artifact is). -/
theorem c6_counterexample :
    ¬ ((separate envAllOk "http://h" ⟨some "speech.wav", some "audio/x-wav", [7, 8, 9]⟩
          "j" FS.empty).1.fileAt ["j", "speech.wav"] = some [7, 8, 9]) := by
  decide

/-- C6 (amended): `separate` writes the uploaded bytes verbatim into the job
directory under the supplied filename (or under `"input"` when no or an empty
filename was supplied), and they are still there when the call ends provided
the supplied name is not one of the two artifact names `speech.wav` /
`background.wav`, which the artifact save would overwrite. -/
theorem c6_input_persisted (env : Env) (base : String) (up : UploadFile)
    (jid : String) (fs : FS)
    (hdir : fs.pathExists [jid] = false) (hmk : env.mkdir_ok = true)
    (hw : env.write_ok = true)
    (hs : pyOrStr up.filename "input" ≠ "speech.wav")
    (hb : pyOrStr up.filename "input" ≠ "background.wav") :
    (separate env base up jid fs).1.fileAt [jid, pyOrStr up.filename "input"]
      = some up.content ∧
    (∀ s, up.filename = some s → s ≠ "" →
      (separate env base up jid fs).1.fileAt [jid, s] = some up.content) ∧
    (up.filename = none →
      (separate env base up jid fs).1.fileAt [jid, "input"] = some up.content) := by
  have hmain : (separate env base up jid fs).1.fileAt [jid, pyOrStr up.filename "input"]
      = some up.content := by
    cases hpro : env.provider with
    | error e =>
      rw [separate_provider_fail env base up jid fs e hdir hmk hw hpro]
      rw [fileAt_cons, if_pos rfl]
    | ok t =>
      cases heng : env.engine with
      | error e =>
        cases e
        rw [separate_engine_fail env base up jid fs t hdir hmk hw hpro heng]
        rw [fileAt_cons, if_pos rfl]
      | ok pr =>
        cases hsv : env.save_ok with
        | false =>
          rw [separate_save_fail env base up jid fs t pr hdir hmk hw hpro heng hsv]
          rw [fileAt_cons, if_pos rfl]
        | true =>
          rw [separate_success env base up jid fs t pr hdir hmk hw hpro heng hsv]
          have hsp : ¬ ([jid, "speech.wav"] : FPath) = [jid, pyOrStr up.filename "input"] := by
            simp only [List.cons.injEq, and_true, true_and]
            intro hh
            exact hs hh.symm
          have hbg : ¬ ([jid, "background.wav"] : FPath)
              = [jid, pyOrStr up.filename "input"] := by
            simp only [List.cons.injEq, and_true, true_and]
            intro hh
            exact hb hh.symm
          rw [fileAt_cons, if_neg hsp, fileAt_cons, if_neg hbg, fileAt_cons, if_pos rfl]
  refine ⟨hmain, ?_, ?_⟩
  · intro s hsome hne
    have hps : pyOrStr up.filename "input" = s := by simp [pyOrStr, hsome, hne]
    rw [← hps]
    exact hmain
  · intro hnone
    have hps : pyOrStr up.filename "input" = "input" := by simp [pyOrStr, hnone]
    rw [← hps]
    exact hmain

theorem c6_witness :
    FS.empty.pathExists ["j6"] = false ∧
    pyOrStr upClip.filename "input" ≠ "speech.wav" ∧
    pyOrStr upClip.filename "input" ≠ "background.wav" ∧
    (separate envAllOk "http://h" upClip "j6" FS.empty).1.fileAt ["j6", "clip.mp4"]
      = some [7, 8, 9] :=
  ⟨rfl, by decide, by decide,
   (c6_input_persisted envAllOk "http://h" upClip "j6" FS.empty
      rfl rfl rfl (by decide) (by decide)).1⟩

/-- C1 counterexample: an execution of `separate` in which the job directory
is created and the input write then fails (e.g. disk full) leaves a job
directory — `output/orphan` — that contains no file at all, so a job
directory is created without an accompanying input file. -/
theorem c1_counterexample :
    (separate envWriteFail "http://h" upClip "orphan" FS.empty).1 =
      ⟨[["orphan"]], []⟩ ∧
    (separate envWriteFail "http://h" upClip "orphan" FS.empty).2.2 = .error .storage := by
  decide

/-- C1 (amended): after any execution of `separate` on a fresh job id, the
two output artifacts exist in the job directory if and only if the call
completed successfully; and whenever the directory creation and the input
write succeed, the job directory contains a file at the input path — but a
failed input write can leave a created job directory with no input file. -/
theorem c1_artifacts_iff_success (env : Env) (base : String) (up : UploadFile)
    (jid : String) (fs : FS)
    (hdir : fs.pathExists [jid] = false)
    (hfresh : ∀ e ∈ fs.files, e.1.head? ≠ some jid) :
    ((((separate env base up jid fs).1.fileAt [jid, "speech.wav"]).isSome = true ∧
      ((separate env base up jid fs).1.fileAt [jid, "background.wav"]).isSome = true) ↔
      exceptOk (separate env base up jid fs).2.2 = true) ∧
    (env.mkdir_ok = true → env.write_ok = true →
      ((separate env base up jid fs).1.fileAt [jid, pyOrStr up.filename "input"]).isSome
        = true) := by
  constructor
  · cases hmk : env.mkdir_ok with
    | false =>
      rw [separate_mkdir_fail env base up jid fs (by simp [hdir, hmk])]
      simp [fileAt_fresh fs jid hfresh, exceptOk]
    | true =>
      cases hw : env.write_ok with
      | false =>
        rw [separate_write_fail env base up jid fs hdir hmk hw]
        simp [fileAt_files_fresh ([jid] :: fs.dirs) fs.files jid hfresh, exceptOk]
      | true =>
        cases hpro : env.provider with
        | error e =>
          rw [separate_provider_fail env base up jid fs e hdir hmk hw hpro]
          simp only [exceptOk]
          constructor
          · intro hh
            exact absurd hh (no_artifacts_of_input_only _ fs jid _ _ hfresh)
          · intro hh
            simp at hh
        | ok t =>
          cases heng : env.engine with
          | error e =>
            cases e
            rw [separate_engine_fail env base up jid fs t hdir hmk hw hpro heng]
            simp only [exceptOk]
            constructor
            · intro hh
              exact absurd hh (no_artifacts_of_input_only _ fs jid _ _ hfresh)
            · intro hh
              simp at hh
          | ok pr =>
            cases hsv : env.save_ok with
            | false =>
              rw [separate_save_fail env base up jid fs t pr hdir hmk hw hpro heng hsv]
              simp only [exceptOk]
              constructor
              · intro hh
                exact absurd hh (no_artifacts_of_input_only _ fs jid _ _ hfresh)
              · intro hh
                simp at hh
            | true =>
              rw [separate_success env base up jid fs t pr hdir hmk hw hpro heng hsv]
              simp only [exceptOk, iff_true]
              constructor
              · rw [fileAt_cons, if_pos rfl]
                rfl
              · rw [fileAt_cons,
                  if_neg (by simp [List.cons.injEq, speech_ne_background]),
                  fileAt_cons, if_pos rfl]
                rfl
  · intro hmk hw
    exact input_path_occupied env base up jid fs hdir hmk hw

theorem c1_witness :
    FS.empty.pathExists ["j1"] = false ∧
    ((((separate envAllOk "http://h" upClip "j1" FS.empty).1.fileAt
        ["j1", "speech.wav"]).isSome = true ∧
      ((separate envAllOk "http://h" upClip "j1" FS.empty).1.fileAt
        ["j1", "background.wav"]).isSome = true) ↔
      exceptOk (separate envAllOk "http://h" upClip "j1" FS.empty).2.2 = true) ∧
    ((separate envAllOk "http://h" upClip "j1" FS.empty).1.fileAt
      ["j1", "clip.mp4"]).isSome = true :=
  ⟨rfl,
   (c1_artifacts_iff_success envAllOk "http://h" upClip "j1" FS.empty rfl (by simp [FS.empty])).1,
   (c1_artifacts_iff_success envAllOk "http://h" upClip "j1" FS.empty rfl (by simp [FS.empty])).2
     rfl rfl⟩

end Server
